import Mathlib

/-!
Verification of the BitDubber core pipeline: a shallow embedding of the
`ActionExecutor`, `VoiceRecognizer` (with its embedded command parser),
`ScreenReader` and `Settings` components, together with theorems settling
the specified properties against the embedded code.

Python strings are modelled as lists of characters (`Str`), so that all
string operations (`lower`, `strip`, `startswith`, slicing, `replace`)
are structurally recursive and fully evaluable. Backend effects (process
spawn, speech transcription, OCR, screen grab) are modelled as explicit
oracle parameters: each embedded operation takes the outcome the external
collaborator would produce and threads state explicitly.
-/

namespace BitDubber

/-- Python strings, modelled as lists of characters. -/
abbrev Str := List Char

/-- Conversion from Lean string literals to the embedded string type. -/
def str (s : String) : Str := s.data

/-- Python whitespace test for `str.strip()` (the ASCII whitespace
characters). -/
def pyIsSpace (c : Char) : Bool :=
  c = ' ' || c = '\t' || c = '\n' || c = '\r' || c = '\x0b' || c = '\x0c'

/-- Python `str.strip()`: removes leading and trailing whitespace. -/
def pyStrip (s : Str) : Str :=
  ((s.dropWhile pyIsSpace).reverse.dropWhile pyIsSpace).reverse

/-- Python `str.lower()` (on the ASCII range used by the program). -/
def pyLower (s : Str) : Str := s.map Char.toLower

/-- Python `str.replace(a, b)` for single-character pattern and
replacement, as used by `_action_search`. -/
def pyReplaceChar (a b : Char) (s : Str) : Str :=
  s.map (fun c => if c = a then b else c)

/-- Python truthiness of an optional string: `None` and `""` are falsy. -/
def pyTruthy : Option Str → Bool
  | none => false
  | some s => !s.isEmpty

/-- Python f-string rendering of an optional string: `None` prints as
"None". -/
def pyStr : Option Str → Str
  | none => str "None"
  | some s => s

/-- Parameter maps passed alongside actions; the core never inspects them,
it only stores and returns them. -/
abbrev Params := List (Str × Str)

/-- Result dictionary returned by every action handler:
`{status, message}`. -/
structure ActionResult where
  status : Str
  message : Str
deriving DecidableEq, Repr

/-- One entry of `action_history`: the original action, target and params,
the handler's result, and a capture timestamp. -/
structure ActionHistoryEntry where
  action : Str
  target : Option Str
  params : Params
  result : ActionResult
  timestamp : ℚ
deriving DecidableEq, Repr

/-- `ActionExecutionError(message, details)` from `utils/exceptions.py`. -/
structure ActionExecutionError where
  message : Str
  details : Option Str
deriving DecidableEq, Repr

/-- The fixed application table of `_action_open`. -/
def app_commands : List (Str × Str) :=
  [(str "browser", str "xdg-open https://"),
   (str "calculator", str "gnome-calculator"),
   (str "terminal", str "gnome-terminal"),
   (str "files", str "nautilus"),
   (str "settings", str "gnome-control-center")]

/-- Handler for the `open` action. `spawnRes` is the process-spawn oracle:
given the command line, it reports whether `Popen` succeeded. The second
component of the result is the trace of spawned command lines. -/
def action_open (spawnRes : Str → Except Str Unit)
    (target : Option Str) (_params : Params) : ActionResult × List Str :=
  match target with
  | some t =>
    if !t.isEmpty && (app_commands.lookup (pyLower t)).isSome then
      let cmd := (app_commands.lookup (pyLower t)).getD []
      match spawnRes cmd with
      | .ok _ => (⟨str "success", str "Opened " ++ t⟩, [cmd])
      | .error e =>
        (⟨str "error", str "Failed to open " ++ t ++ str ": " ++ e⟩, [cmd])
    else
      (⟨str "partial",
        str "Open action for '" ++ t ++ str "' not fully implemented"⟩, [])
  | none =>
    (⟨str "partial", str "Open action for 'None' not fully implemented"⟩, [])

/-- Handler for the `close` action: an intentionally unimplemented stub. -/
def action_close (target : Option Str) (_params : Params) :
    ActionResult × List Str :=
  (⟨str "partial",
    str "Close action for '" ++ pyStr target ++ str "' not fully implemented"⟩, [])

/-- Handler for the `click` action: an intentionally unimplemented stub. -/
def action_click (target : Option Str) (_params : Params) :
    ActionResult × List Str :=
  (⟨str "partial",
    str "Click action for '" ++ pyStr target ++ str "' not fully implemented"⟩, [])

/-- Handler for the `type` action: an intentionally unimplemented stub. -/
def action_type (target : Option Str) (_params : Params) :
    ActionResult × List Str :=
  (⟨str "partial",
    str "Type action for '" ++ pyStr target ++ str "' not fully implemented"⟩, [])

/-- Handler for the `scroll` action: an intentionally unimplemented stub. -/
def action_scroll (target : Option Str) (_params : Params) :
    ActionResult × List Str :=
  (⟨str "partial",
    str "Scroll action for '" ++ pyStr target ++ str "' not fully implemented"⟩, [])

/-- The web-search URL built by `_action_search`: the query with spaces
replaced by plus signs, appended to the search endpoint. -/
def search_url (t : Str) : Str :=
  str "https://www.google.com/search?q=" ++ pyReplaceChar ' ' '+' t

/-- Handler for the `search` action: with a truthy target it spawns
`xdg-open` on the search URL; otherwise it reports a missing query. -/
def action_search (spawnRes : Str → Except Str Unit)
    (target : Option Str) (_params : Params) : ActionResult × List Str :=
  match target with
  | some t =>
    if t.isEmpty then
      (⟨str "error", str "No search query provided"⟩, [])
    else
      let cmd := str "xdg-open " ++ search_url t
      match spawnRes cmd with
      | .ok _ => (⟨str "success", str "Searching for '" ++ t ++ str "'"⟩, [cmd])
      | .error e => (⟨str "error", str "Failed to search: " ++ e⟩, [cmd])
  | none => (⟨str "error", str "No search query provided"⟩, [])

/-- Handler for the `find` action: an intentionally unimplemented stub. -/
def action_find (target : Option Str) (_params : Params) :
    ActionResult × List Str :=
  (⟨str "partial",
    str "Find action for '" ++ pyStr target ++ str "' not fully implemented"⟩, [])

/-- Default handler for unrecognized actions. -/
def action_unknown (_target : Option Str) (_params : Params) :
    ActionResult × List Str :=
  (⟨str "error", str "Unknown action"⟩, [])

/-- The dispatch-table keys of `_dispatch_action`. -/
def dispatch_keys : List Str :=
  [str "open", str "close", str "click", str "type",
   str "scroll", str "search", str "find"]

/-- `_dispatch_action`: case-folds the action, looks it up in the fixed
dispatch table and runs the handler (falling back to `action_unknown`). -/
def dispatch_action (spawnRes : Str → Except Str Unit)
    (action : Str) (target : Option Str) (params : Params) :
    ActionResult × List Str :=
  let a := pyLower action
  if a = str "open" then action_open spawnRes target params
  else if a = str "close" then action_close target params
  else if a = str "click" then action_click target params
  else if a = str "type" then action_type target params
  else if a = str "scroll" then action_scroll target params
  else if a = str "search" then action_search spawnRes target params
  else if a = str "find" then action_find target params
  else action_unknown target params

/-- The try/except skeleton of `execute_action`, generic in the dispatched
handler's outcome `hres` (a returned result dictionary, or a raised
exception's message). On a returned result the history gets exactly one
appended entry; on a raised exception the history is left unchanged and an
`ActionExecutionError` is raised carrying the action name and the
underlying message as details. -/
def execute_action_core (action : Str) (target : Option Str)
    (params : Params) (hres : Except Str ActionResult)
    (history : List ActionHistoryEntry) (ts : ℚ) :
    List ActionHistoryEntry × Except ActionExecutionError ActionResult :=
  match hres with
  | .ok r =>
    (history ++ [⟨action, target, params, r, ts⟩], .ok r)
  | .error e =>
    (history, .error ⟨str "Failed to execute action: " ++ action, some e⟩)

/-- `execute_action` with the concrete dispatch table: dispatches, records
the entry, and also reports the trace of spawned command lines. -/
def execute_action (spawnRes : Str → Except Str Unit)
    (action : Str) (target : Option Str) (params : Params)
    (history : List ActionHistoryEntry) (ts : ℚ) :
    List ActionHistoryEntry × Except ActionExecutionError ActionResult × List Str :=
  let (r, trace) := dispatch_action spawnRes action target params
  let (h, res) := execute_action_core action target params (.ok r) history ts
  (h, res, trace)

/-- Python list slicing `l[i:]` (one-sided, from `i` to the end). -/
def pySliceFrom {α : Type} (l : List α) (i : Int) : List α :=
  if i < 0 then l.drop ((l.length : Int) + i).toNat
  else l.drop i.toNat

/-- `get_action_history(limit)` is `self.action_history[-limit:]`. -/
def get_action_history (history : List ActionHistoryEntry)
    (limit : Int := 10) : List ActionHistoryEntry :=
  pySliceFrom history (-limit)

/-- `clear_history()` resets the history to the empty list. -/
def clear_history (_history : List ActionHistoryEntry) :
    List ActionHistoryEntry :=
  []

/-- `VoiceRecognitionError(message, details)` from `utils/exceptions.py`. -/
structure VoiceRecognitionError where
  message : Str
  details : Option Str
deriving DecidableEq, Repr

/-- Mutable state of `VoiceRecognizer` relevant to listening: the last
recognized command (empty until first success). -/
structure VRState where
  last_command : Str
deriving DecidableEq, Repr

/-- Outcome of one listen/transcribe round, as produced by the speech
backend: a transcript, or one of the four failure kinds handled by
`listen_for_command`. -/
inductive ListenOutcome where
  | success (text : Str)
  | waitTimeout
  | unknownValue
  | requestError (msg : Str)
  | otherError (msg : Str)
deriving DecidableEq, Repr

/-- `listen_for_command`: on a successful transcription it stores the
command in `last_command` and returns it; each failure kind raises a
`VoiceRecognitionError` with the corresponding message and leaves the
state untouched. -/
def listen_for_command (st : VRState) (o : ListenOutcome) :
    VRState × Except VoiceRecognitionError Str :=
  match o with
  | .success t => ({ st with last_command := t }, .ok t)
  | .waitTimeout =>
    (st, .error ⟨str "Listening timed out - no speech detected", none⟩)
  | .unknownValue =>
    (st, .error ⟨str "Could not understand audio", none⟩)
  | .requestError m =>
    (st, .error ⟨str "Could not request results from speech recognition service", some m⟩)
  | .otherError m =>
    (st, .error ⟨str "Unexpected error during voice recognition", some m⟩)

/-- One iteration's event inside `listen_continuously`: either a
`listen_for_command` round with its backend outcome, or a keyboard
interrupt delivered during the iteration. -/
inductive LoopEvent where
  | listen (o : ListenOutcome)
  | interrupt
deriving DecidableEq, Repr

/-- `listen_continuously` over a finite trace of per-iteration events.
Returns the final recognizer state, the list of texts passed to the
callback in order, and whether the loop has terminated (`false` means the
trace ran out with the loop still live). -/
def listen_continuously (stop_phrase : Str) (st : VRState) :
    List LoopEvent → VRState × List Str × Bool
  | [] => (st, [], false)
  | .interrupt :: _ => (st, [], true)
  | .listen o :: rest =>
    match listen_for_command st o with
    | (st1, .error _) => listen_continuously stop_phrase st1 rest
    | (st1, .ok command) =>
      if pyLower command = pyLower stop_phrase then (st1, [], true)
      else
        ((listen_continuously stop_phrase st1 rest).1,
         command :: (listen_continuously stop_phrase st1 rest).2.1,
         (listen_continuously stop_phrase st1 rest).2.2)

/-- Whether a loop event terminates `listen_continuously`: an interrupt,
or a recognized text whose case-folded form equals the case-folded stop
phrase. -/
def isStopEvent (stop_phrase : Str) : LoopEvent → Bool
  | .interrupt => true
  | .listen (.success t) => pyLower t = pyLower stop_phrase
  | .listen _ => false

/-- The fixed ordered verb list of `parse_command`. -/
def action_verbs : List Str :=
  [str "open", str "close", str "click", str "type",
   str "scroll", str "search", str "find"]

/-- Result of `parse_command`: the raw normalized command, the action verb
(or "unknown"), the target remainder, and the (always empty) params. -/
structure ParsedCommand where
  raw : Str
  action : Str
  target : Str
  params : Params
deriving DecidableEq, Repr

/-- The verb-scan loop of `parse_command`: finds the first verb the text
starts with and returns it with the trimmed remainder. -/
def scan_verbs (c : Str) : List Str → Option (Str × Str)
  | [] => none
  | v :: vs =>
    if v.isPrefixOf c then some (v, pyStrip (c.drop v.length))
    else scan_verbs c vs

/-- `parse_command(command)`: `command or self.last_command` (so `None`
and the empty string both fall back to `last_command`), lower-cased and
trimmed, then scanned against the fixed verb list; on no match the action
is "unknown" and the target is the whole normalized command. -/
def parse_command (last_command : Str) (command : Option Str) :
    ParsedCommand :=
  let c0 := match command with
    | none => last_command
    | some s => if s.isEmpty then last_command else s
  let c := pyStrip (pyLower c0)
  match scan_verbs c action_verbs with
  | some (v, t) => ⟨c, v, t, []⟩
  | none => ⟨c, str "unknown", c, []⟩

/-- `ScreenCaptureError(message, details)` from `utils/exceptions.py`. -/
structure ScreenCaptureError where
  message : Str
  details : Option Str
deriving DecidableEq, Repr

/-- Mutable state of `ScreenReader`: the two cached fields
`last_screenshot` and `last_text`. -/
structure SRState where
  last_screenshot : Option Str
  last_text : Str
deriving DecidableEq, Repr

/-- `capture_screenshot(save, bbox)`: `grab` is the capture-backend
oracle (the grabbed image, or the backend exception's message) and
`path` the timestamped file path that would be written. On success with
`save = true` the path is recorded in `last_screenshot`; with
`save = false` the state is untouched. A backend failure raises
`ScreenCaptureError` and leaves the state untouched. -/
def capture_screenshot {Img : Type} (st : SRState) (save : Bool)
    (grab : Except Str Img) (path : Str) :
    SRState × Except ScreenCaptureError Img :=
  match grab with
  | .error e => (st, .error ⟨str "Failed to capture screenshot", some e⟩)
  | .ok img =>
    if save then ({ st with last_screenshot := some path }, .ok img)
    else (st, .ok img)

/-- `extract_text(image, enhance)`: `ocr` is the OCR-backend oracle (the
raw recognized text, or the backend exception's message, covering the
implicit capture as well). On success the trimmed text is stored in
`last_text` and returned; a failure raises `ScreenCaptureError` and
leaves the state untouched. -/
def extract_text (st : SRState) (ocr : Except Str Str) :
    SRState × Except ScreenCaptureError Str :=
  match ocr with
  | .error e => (st, .error ⟨str "Failed to extract text from image", some e⟩)
  | .ok t => ({ st with last_text := pyStrip t }, .ok (pyStrip t))

/-- Structured OCR output of `image_to_data`: parallel per-token lists for
text, confidence, and bounding-box coordinates. -/
structure OcrData where
  text : List Str
  conf : List ℚ
  left : List Int
  top : List Int
  width : List Int
  height : List Int
deriving DecidableEq, Repr

/-- One element of the `extract_text_with_confidence` result: the original
token text, its confidence, and its bounding box. -/
structure TextElement where
  text : Str
  confidence : ℚ
  left : Int
  top : Int
  width : Int
  height : Int
deriving DecidableEq, Repr

/-- The TextElement built from token `i` of the OCR data. -/
def mkTextElement (d : OcrData) (i : Nat) (t : Str) : TextElement :=
  ⟨t, d.conf.getD i 0, d.left.getD i 0, d.top.getD i 0,
   d.width.getD i 0, d.height.getD i 0⟩

/-- The enumeration loop of `extract_text_with_confidence`: walks the
token texts with their index, keeping tokens that are non-empty after
trimming and whose confidence meets the threshold. -/
def ocr_filter_loop (threshold : ℚ) (d : OcrData) (i : Nat) :
    List Str → List TextElement
  | [] => []
  | t :: ts =>
    if !(pyStrip t).isEmpty && decide (threshold ≤ d.conf.getD i 0) then
      mkTextElement d i t :: ocr_filter_loop threshold d (i + 1) ts
    else
      ocr_filter_loop threshold d (i + 1) ts

/-- `extract_text_with_confidence`: structured OCR filtered by non-empty
trimmed text and by the configured confidence threshold, in scan order. -/
def extract_text_with_confidence (threshold : ℚ) (d : OcrData) :
    List TextElement :=
  ocr_filter_loop threshold d 0 d.text

/-- The bounded numeric fields of `Settings`, as submitted to
construction. -/
structure Settings where
  screenshot_interval : ℚ
  ocr_confidence_threshold : ℚ
  voice_timeout : ℚ
  voice_phrase_time_limit : ℚ
  voice_energy_threshold : Int
  action_timeout : ℚ
deriving DecidableEq, Repr

/-- The per-field `ge`/`le` bounds declared on the `Settings` fields. -/
def settings_in_range (s : Settings) : Bool :=
  decide ((1 : ℚ)/10 ≤ s.screenshot_interval) &&
  decide (s.screenshot_interval ≤ 60) &&
  decide ((0 : ℚ) ≤ s.ocr_confidence_threshold) &&
  decide (s.ocr_confidence_threshold ≤ 100) &&
  decide ((1 : ℚ) ≤ s.voice_timeout) &&
  decide (s.voice_timeout ≤ 30) &&
  decide ((1 : ℚ) ≤ s.voice_phrase_time_limit) &&
  decide (s.voice_phrase_time_limit ≤ 60) &&
  decide ((100 : Int) ≤ s.voice_energy_threshold) &&
  decide (s.voice_energy_threshold ≤ 4000) &&
  decide ((1 : ℚ) ≤ s.action_timeout) &&
  decide (s.action_timeout ≤ 300)

/-- `Settings(...)` construction: pydantic validates every bounded field
at construction time and raises a validation error when any is out of
range. -/
def mk_settings (s : Settings) : Except Str Settings :=
  if settings_in_range s then .ok s else .error (str "validation error")

/-- The source's default values for the bounded numeric fields. -/
def default_settings : Settings :=
  ⟨1, 60, 5, 10, 300, 30⟩

/-- A spawn oracle on which every process spawn succeeds. -/
def spawn_always_ok : Str → Except Str Unit := fun _ => .ok ()

/-- The history entry produced by a successful `search` execution. -/
def search_entry (t : Str) (ts : ℚ) : ActionHistoryEntry :=
  ⟨str "search", some t, [], ⟨str "success", str "Searching for '" ++ t ++ str "'"⟩, ts⟩

/-- A sample history entry, used for concrete counterexamples. -/
def demo_entry : ActionHistoryEntry :=
  ⟨str "search", some (str "a"), [],
   ⟨str "success", str "Searching for 'a'"⟩, 0⟩

/-- The verb scan equals the first match of the ordered verb list. -/
theorem scan_verbs_eq_find (c : Str) (vs : List Str) :
    scan_verbs c vs = (vs.find? (fun w => w.isPrefixOf c)).map
      (fun v => (v, pyStrip (c.drop v.length))) := by
  induction vs with
  | nil => rfl
  | cons v vs ih =>
    by_cases hv : v.isPrefixOf c
    · simp [scan_verbs, List.find?_cons, hv]
    · simp [scan_verbs, List.find?_cons, hv, ih]

/-- C1: `execute_action` appends exactly one history entry when the
dispatched handler returns a result, and on a handler exception it leaves
the history exactly as it was and raises `ActionExecutionError` carrying
the action name in its message and the underlying exception's message as
details. -/
theorem execute_action_history_effects (action : Str)
    (target : Option Str) (params : Params)
    (history : List ActionHistoryEntry) (ts : ℚ) :
    (∀ e, execute_action_core action target params (.error e) history ts =
      (history, .error ⟨str "Failed to execute action: " ++ action, some e⟩)) ∧
    (∀ r, execute_action_core action target params (.ok r) history ts =
      (history ++ [⟨action, target, params, r, ts⟩], .ok r)) :=
  ⟨fun _ => rfl, fun _ => rfl⟩

/-- C2 counterexample: with `last_command = "open x"`, passing the empty
string as the command does not yield action "unknown" with the empty
target (as the claim's universal reading predicts); the empty string is
falsy in Python, so the code falls back to `last_command` and parses
"open x" instead. -/
theorem parse_command_empty_input_counterexample :
    (parse_command (str "open x") (some [])).action = str "open" ∧
    (parse_command (str "open x") (some [])).action ≠ str "unknown" ∧
    (parse_command (str "open x") (some [])).target = str "x" := by
  refine ⟨rfl, by decide, rfl⟩

/-- C2 (amended to non-empty inputs): for every non-empty input string,
`parse_command` lower-cases and trims it, matches the first verb of the
fixed ordered list that prefixes the text (returning that verb as the
action and the trimmed remainder as the target), returns action "unknown"
with the whole normalized command as the target when no verb is a prefix,
never returns an empty action, and always returns empty params. -/
theorem parse_command_spec (last s : Str) (h : s ≠ []) :
    (parse_command last (some s)).raw = pyStrip (pyLower s) ∧
    (parse_command last (some s)).action ≠ [] ∧
    (parse_command last (some s)).params = [] ∧
    (∀ v, action_verbs.find? (fun w => w.isPrefixOf (pyStrip (pyLower s))) = some v →
      (parse_command last (some s)).action = v ∧
      (parse_command last (some s)).target =
        pyStrip ((pyStrip (pyLower s)).drop v.length)) ∧
    (action_verbs.find? (fun w => w.isPrefixOf (pyStrip (pyLower s))) = none →
      (parse_command last (some s)).action = str "unknown" ∧
      (parse_command last (some s)).target = pyStrip (pyLower s)) := by
  have hs : s.isEmpty = false := by
    cases s with
    | nil => exact absurd rfl h
    | cons a l => rfl
  have hverbs : ∀ v ∈ action_verbs, v ≠ [] := by decide
  rcases hfind : action_verbs.find? (fun w => w.isPrefixOf (pyStrip (pyLower s))) with _ | v
  · refine ⟨?_, ?_, ?_, ?_, ?_⟩ <;>
      simp [parse_command, hs, scan_verbs_eq_find, hfind, str]
  · have hv : v ≠ [] := hverbs v (List.mem_of_find?_eq_some hfind)
    refine ⟨?_, ?_, ?_, ?_, ?_⟩ <;>
      simp [parse_command, hs, scan_verbs_eq_find, hfind, hv]

/-- C2 witness: the amended theorem applied to "open browser". -/
theorem parse_command_spec_witness :
    (parse_command [] (some (str "open browser"))).action = str "open" ∧
    (parse_command [] (some (str "open browser"))).target = str "browser" :=
  (parse_command_spec [] (str "open browser") (by decide)).2.2.2.1
    (str "open") (by decide)

/-- C3 counterexample: with `limit = 0` (an integer the claim quantifies
over) the most recent zero entries would be the empty list, but the code
computes the Python slice `history[-0:]`, which is the whole history. -/
theorem get_action_history_zero_counterexample :
    get_action_history [demo_entry] 0 = [demo_entry] ∧
    [demo_entry] ≠ ([] : List ActionHistoryEntry) :=
  ⟨rfl, by simp⟩

/-- C3 (amended to positive limits): for every history and every limit at
least 1, `get_action_history` returns the most recent `limit` entries in
insertion order, a limit at least the history length returns the whole
history, and the three-search scenario ("a", "b", "c" then limit 2)
returns exactly the entries for "b" then "c". -/
theorem get_action_history_spec (history : List ActionHistoryEntry)
    (limit : Int) (h : 1 ≤ limit) :
    get_action_history history limit =
      history.drop (history.length - limit.toNat) ∧
    ((history.length : Int) ≤ limit →
      get_action_history history limit = history) ∧
    get_action_history
      ((execute_action spawn_always_ok (str "search") (some (str "c")) []
        ((execute_action spawn_always_ok (str "search") (some (str "b")) []
          ((execute_action spawn_always_ok (str "search") (some (str "a")) []
            [] 0).1) 1).1) 2).1) 2 =
      [search_entry (str "b") 1, search_entry (str "c") 2] := by
  have h0 : get_action_history history limit =
      history.drop (history.length - limit.toNat) := by
    unfold get_action_history pySliceFrom
    rw [if_pos (by omega)]
    congr 1
    omega
  refine ⟨h0, ?_, rfl⟩
  intro hle
  rw [h0]
  have hz : history.length - limit.toNat = 0 := by omega
  rw [hz, List.drop_zero]

/-- C3 witness: the amended theorem applied to a one-entry history with
limit 2. -/
theorem get_action_history_spec_witness :
    get_action_history [demo_entry] 2 = [demo_entry] :=
  (get_action_history_spec [demo_entry] 2 (by decide)).2.1 (by decide)

/-- C4 counterexample: the empty string is a present target, yet with a
spawn oracle that always succeeds the result status is "error" (the code
treats the falsy empty target as "no search query provided"), not
"success" as the claim states for present targets. -/
theorem execute_action_search_empty_counterexample :
    (execute_action spawn_always_ok (str "search") (some []) [] [] 0).2.1 =
      .ok ⟨str "error", str "No search query provided"⟩ ∧
    str "error" ≠ str "success" :=
  ⟨rfl, by decide⟩

/-- C4 (amended to non-empty targets): with a non-empty target and a
successful spawn, `execute_action("search", t)` returns status "success",
appends exactly one entry whose target is the given target unchanged, and
spawns `xdg-open` on the search URL built from the target with spaces
replaced by "+"; with no target it returns status "error" with message
"No search query provided"; when the spawn fails it returns status
"error". -/
theorem execute_action_search_spec (t : Str) (params : Params)
    (history : List ActionHistoryEntry) (ts : ℚ)
    (spawnRes : Str → Except Str Unit) :
    (t ≠ [] → spawnRes (str "xdg-open " ++ search_url t) = .ok () →
      execute_action spawnRes (str "search") (some t) params history ts =
        (history ++ [⟨str "search", some t, params,
            ⟨str "success", str "Searching for '" ++ t ++ str "'"⟩, ts⟩],
         .ok ⟨str "success", str "Searching for '" ++ t ++ str "'"⟩,
         [str "xdg-open " ++ search_url t])) ∧
    (t ≠ [] → spawnRes (str "xdg-open " ++ search_url t) = .ok () →
      (execute_action spawnRes (str "search") (some t) params history ts).1.getLast? =
        some ⟨str "search", some t, params,
          ⟨str "success", str "Searching for '" ++ t ++ str "'"⟩, ts⟩) ∧
    (execute_action spawnRes (str "search") none params history ts =
      (history ++ [⟨str "search", none, params,
          ⟨str "error", str "No search query provided"⟩, ts⟩],
       .ok ⟨str "error", str "No search query provided"⟩, [])) ∧
    (∀ e, t ≠ [] → spawnRes (str "xdg-open " ++ search_url t) = .error e →
      (execute_action spawnRes (str "search") (some t) params history ts).2.1 =
        .ok ⟨str "error", str "Failed to search: " ++ e⟩) := by
  have hdisp : ∀ target, dispatch_action spawnRes (str "search") target params =
      action_search spawnRes target params := fun _ => rfl
  refine ⟨?_, ?_, ?_, ?_⟩
  · intro ht hsp
    have hemp : t.isEmpty = false := by
      cases t with
      | nil => exact absurd rfl ht
      | cons a l => rfl
    simp [execute_action, hdisp, action_search, hemp, hsp, execute_action_core]
  · intro ht hsp
    have hemp : t.isEmpty = false := by
      cases t with
      | nil => exact absurd rfl ht
      | cons a l => rfl
    simp [execute_action, hdisp, action_search, hemp, hsp, execute_action_core]
  · simp [execute_action, hdisp, action_search, execute_action_core]
  · intro e ht hsp
    have hemp : t.isEmpty = false := by
      cases t with
      | nil => exact absurd rfl ht
      | cons a l => rfl
    simp [execute_action, hdisp, action_search, hemp, hsp, execute_action_core]

/-- C4 witness: the amended theorem applied to target "rust" with an
always-succeeding spawn oracle. -/
theorem execute_action_search_spec_witness :
    execute_action spawn_always_ok (str "search") (some (str "rust")) [] [] 0 =
      ([search_entry (str "rust") 0],
       .ok ⟨str "success", str "Searching for 'rust'"⟩,
       [str "xdg-open https://www.google.com/search?q=rust"]) :=
  (execute_action_search_spec (str "rust") [] [] 0 spawn_always_ok).1
    (by decide) rfl

/-- C5: for every action whose case-folded form is not one of the seven
dispatch-table keys, `execute_action` returns status "error" with message
"Unknown action" (recording one history entry) and never raises. -/
theorem execute_action_unknown_spec (spawnRes : Str → Except Str Unit)
    (action : Str) (target : Option Str) (params : Params)
    (history : List ActionHistoryEntry) (ts : ℚ)
    (h : pyLower action ∉ dispatch_keys) :
    execute_action spawnRes action target params history ts =
      (history ++
        [⟨action, target, params, ⟨str "error", str "Unknown action"⟩, ts⟩],
       .ok ⟨str "error", str "Unknown action"⟩, []) := by
  obtain ⟨h1, h2, h3, h4, h5, h6, h7⟩ :
      pyLower action ≠ str "open" ∧ pyLower action ≠ str "close" ∧
      pyLower action ≠ str "click" ∧ pyLower action ≠ str "type" ∧
      pyLower action ≠ str "scroll" ∧ pyLower action ≠ str "search" ∧
      pyLower action ≠ str "find" := by
    simpa [dispatch_keys] using h
  simp [execute_action, dispatch_action, execute_action_core, action_unknown,
    h1, h2, h3, h4, h5, h6, h7]

/-- C5 witness: the theorem applied to the unrecognized action "dance". -/
theorem execute_action_unknown_spec_witness :
    execute_action spawn_always_ok (str "dance") none [] [] 0 =
      ([⟨str "dance", none, [], ⟨str "error", str "Unknown action"⟩, 0⟩],
       .ok ⟨str "error", str "Unknown action"⟩, []) :=
  execute_action_unknown_spec spawn_always_ok (str "dance") none [] [] 0
    (by decide)

/-- A sample event trace for continuous listening. -/
def demo_trace : List LoopEvent :=
  [.listen (.success (str "hello")), .listen .waitTimeout,
   .listen (.success (str "Stop Listening")), .listen (.success (str "after"))]

/-- C6: over every finite trace of per-iteration outcomes, the callback is
never invoked with a text whose case-folded form equals the case-folded
stop phrase; the loop has terminated exactly when the trace contains a
matching recognized text or an interrupt; and a recognition-error
iteration invokes no callback and leaves the loop running unchanged. -/
theorem listen_continuously_spec (stop : Str) (st : VRState)
    (evs : List LoopEvent) :
    (∀ s ∈ (listen_continuously stop st evs).2.1, pyLower s ≠ pyLower stop) ∧
    ((listen_continuously stop st evs).2.2 = true ↔
      ∃ e ∈ evs, isStopEvent stop e = true) ∧
    (∀ (o : ListenOutcome) (st2 : VRState) (rest : List LoopEvent)
        (err : VoiceRecognitionError),
      (listen_for_command st2 o).2 = .error err →
      listen_continuously stop st2 (.listen o :: rest) =
        listen_continuously stop st2 rest) := by
  refine ⟨?_, ?_, ?_⟩
  · induction evs generalizing st with
    | nil => simp [listen_continuously]
    | cons ev rest ih =>
      cases ev with
      | interrupt => simp [listen_continuously]
      | listen o =>
        cases o with
        | success t =>
          by_cases hstop : pyLower t = pyLower stop
          · simp [listen_continuously, listen_for_command, hstop]
          · simp only [listen_continuously, listen_for_command]
            rw [if_neg hstop]
            intro s hs
            rcases List.mem_cons.mp hs with hs | hs
            · subst hs; exact hstop
            · exact ih _ s hs
        | waitTimeout =>
          simpa [listen_continuously, listen_for_command] using ih _
        | unknownValue =>
          simpa [listen_continuously, listen_for_command] using ih _
        | requestError m =>
          simpa [listen_continuously, listen_for_command] using ih _
        | otherError m =>
          simpa [listen_continuously, listen_for_command] using ih _
  · induction evs generalizing st with
    | nil => simp [listen_continuously]
    | cons ev rest ih =>
      cases ev with
      | interrupt => simp [listen_continuously, isStopEvent]
      | listen o =>
        cases o with
        | success t =>
          by_cases hstop : pyLower t = pyLower stop
          · simp [listen_continuously, listen_for_command, hstop, isStopEvent]
          · simp only [listen_continuously, listen_for_command]
            rw [if_neg hstop]
            simp only [List.mem_cons]
            rw [ih]
            constructor
            · rintro ⟨e, he, hse⟩
              exact ⟨e, Or.inr he, hse⟩
            · rintro ⟨e, he | he, hse⟩
              · subst he
                simp [isStopEvent, hstop] at hse
              · exact ⟨e, he, hse⟩
        | waitTimeout =>
          rw [show listen_continuously stop st (.listen .waitTimeout :: rest) =
            listen_continuously stop st rest from rfl, ih]
          simp [isStopEvent]
        | unknownValue =>
          rw [show listen_continuously stop st (.listen .unknownValue :: rest) =
            listen_continuously stop st rest from rfl, ih]
          simp [isStopEvent]
        | requestError m =>
          rw [show listen_continuously stop st
            (.listen (.requestError m) :: rest) =
            listen_continuously stop st rest from rfl, ih]
          simp [isStopEvent]
        | otherError m =>
          rw [show listen_continuously stop st
            (.listen (.otherError m) :: rest) =
            listen_continuously stop st rest from rfl, ih]
          simp [isStopEvent]
  · intro o st2 rest err herr
    cases o with
    | success t => simp [listen_for_command] at herr
    | waitTimeout => rfl
    | unknownValue => rfl
    | requestError m => rfl
    | otherError m => rfl

/-- C6 witness: on the sample trace, "hello" reaches the callback and is
not (case-folded) the stop phrase. -/
theorem listen_continuously_spec_witness :
    str "hello" ∈
      (listen_continuously (str "stop listening") ⟨[]⟩ demo_trace).2.1 ∧
    pyLower (str "hello") ≠ pyLower (str "stop listening") :=
  ⟨by decide,
   (listen_continuously_spec (str "stop listening") ⟨[]⟩ demo_trace).1
     (str "hello") (by decide)⟩

/-- OCR data with token confidences 85 and 40, for the concrete instance
of the confidence-filter property. -/
def demo_ocr : OcrData :=
  ⟨[str "hello", str "lo"], [85, 40], [1, 2], [3, 4], [5, 6], [7, 8]⟩

/-- The keep condition of the `extract_text_with_confidence` loop: the
token is non-empty after trimming and its confidence meets the
threshold. -/
def ocr_keep (threshold : ℚ) (d : OcrData) (p : Nat × Str) : Bool :=
  !(pyStrip p.2).isEmpty && decide (threshold ≤ d.conf.getD p.1 0)

/-- The filter loop equals the order-preserving filter of the enumerated
token list. -/
theorem ocr_filter_loop_eq_enum (threshold : ℚ) (d : OcrData) (i : Nat)
    (ts : List Str) :
    ocr_filter_loop threshold d i ts =
      ((ts.enumFrom i).filter (ocr_keep threshold d)).map
        (fun p => mkTextElement d p.1 p.2) := by
  induction ts generalizing i with
  | nil => rfl
  | cons t ts ih =>
    simp only [ocr_filter_loop, List.enumFrom, List.filter_cons, ih, ocr_keep]
    by_cases hc :
        (!(pyStrip t).isEmpty && decide (threshold ≤ d.conf.getD i 0)) = true
    · rw [if_pos hc, if_pos hc, List.map_cons]
    · rw [if_neg hc, if_neg hc]

/-- C7: `extract_text_with_confidence` returns exactly the tokens that
are non-empty after trimming and whose confidence is at least the
threshold, in OCR scan order (the returned texts form a subsequence of
the token list, so no re-sorting occurs); with confidences [85, 40] and
threshold 60 it returns exactly the 85-confidence token. -/
theorem extract_text_with_confidence_spec (threshold : ℚ) (d : OcrData) :
    extract_text_with_confidence threshold d =
      ((d.text.enum.filter (ocr_keep threshold d)).map
        (fun p => mkTextElement d p.1 p.2)) ∧
    List.Sublist
      ((extract_text_with_confidence threshold d).map TextElement.text)
      d.text ∧
    extract_text_with_confidence 60 demo_ocr =
      [⟨str "hello", 85, 1, 3, 5, 7⟩] := by
  have h0 := ocr_filter_loop_eq_enum threshold d 0 d.text
  refine ⟨h0, ?_, by decide⟩
  have hsub :=
    (List.filter_sublist (p := ocr_keep threshold d) d.text.enum).map Prod.snd
  rw [List.enum_map_snd] at hsub
  rw [show extract_text_with_confidence threshold d =
    ocr_filter_loop threshold d 0 d.text from rfl, h0, List.map_map]
  exact hsub

/-- A sample screen-reader state with a previously cached screenshot
path. -/
def demo_sr : SRState := ⟨some (str "screenshots/old.png"), []⟩

/-- C8 counterexample: a successful capture call with `save = false`
does not overwrite `last_screenshot` (the claim asserts overwriting
regardless of the call's arguments): the prior cached path survives. -/
theorem capture_nosave_counterexample :
    (capture_screenshot demo_sr false (Except.ok (0 : Nat))
      (str "screenshots/new.png")).1 = demo_sr ∧
    demo_sr.last_screenshot ≠ some (str "screenshots/new.png") :=
  ⟨rfl, by decide⟩

/-- C8 (amended): a successful capture call overwrites `last_screenshot`
exactly when `save = true` (with `save = false` the state is unchanged);
every successful `extract_text` call overwrites `last_text`; and failed
calls leave the two cached fields — the only shared state — unchanged. -/
theorem screen_reader_cache_spec {Img : Type} (st : SRState)
    (grab : Except Str Img) (path : Str) (ocr : Except Str Str) :
    (∀ img, grab = .ok img →
      (capture_screenshot st true grab path).1 =
        { st with last_screenshot := some path } ∧
      (capture_screenshot st false grab path).1 = st) ∧
    (∀ t, ocr = .ok t →
      (extract_text st ocr).1 = { st with last_text := pyStrip t }) ∧
    (∀ e, grab = .error e → (capture_screenshot st true grab path).1 = st) ∧
    (∀ e, ocr = .error e → (extract_text st ocr).1 = st) := by
  refine ⟨?_, ?_, ?_, ?_⟩ <;> intro x hx <;> subst hx <;>
    simp [capture_screenshot, extract_text]

/-- C8 witness: the amended theorem applied to a saving capture on the
sample state. -/
theorem screen_reader_cache_spec_witness :
    (capture_screenshot demo_sr true (Except.ok (0 : Nat))
      (str "screenshots/new.png")).1 =
      { demo_sr with last_screenshot := some (str "screenshots/new.png") } :=
  ((screen_reader_cache_spec demo_sr (Except.ok 0)
    (str "screenshots/new.png") (Except.ok [])).1 0 rfl).1

/-- C9: settings construction succeeds exactly when every bounded numeric
field is inside its documented range (confidence 0–100, voice timeout
1–30, phrase time limit 1–60, energy threshold 100–4000, action timeout
1–300, screenshot interval 0.1–60); in particular `screenshot_interval`
0.05 and 61.0 fail with a validation error while 1.0 succeeds. -/
theorem settings_validation_spec (s : Settings) :
    (mk_settings s = .ok s ↔
      ((1 : ℚ)/10 ≤ s.screenshot_interval ∧ s.screenshot_interval ≤ 60 ∧
       (0 : ℚ) ≤ s.ocr_confidence_threshold ∧
       s.ocr_confidence_threshold ≤ 100 ∧
       (1 : ℚ) ≤ s.voice_timeout ∧ s.voice_timeout ≤ 30 ∧
       (1 : ℚ) ≤ s.voice_phrase_time_limit ∧
       s.voice_phrase_time_limit ≤ 60 ∧
       (100 : Int) ≤ s.voice_energy_threshold ∧
       s.voice_energy_threshold ≤ 4000 ∧
       (1 : ℚ) ≤ s.action_timeout ∧ s.action_timeout ≤ 300)) ∧
    mk_settings { default_settings with screenshot_interval := 1/20 } =
      .error (str "validation error") ∧
    mk_settings { default_settings with screenshot_interval := 61 } =
      .error (str "validation error") ∧
    mk_settings { default_settings with screenshot_interval := 1 } =
      .ok { default_settings with screenshot_interval := 1 } := by
  have key : ∀ u : Settings,
      (mk_settings u = .ok u ↔ settings_in_range u = true) := by
    intro u
    unfold mk_settings
    by_cases hb : settings_in_range u = true
    · simp [hb]
    · simp [hb]
  have range_iff : ∀ u : Settings, settings_in_range u = true ↔
      ((1 : ℚ)/10 ≤ u.screenshot_interval ∧ u.screenshot_interval ≤ 60 ∧
       (0 : ℚ) ≤ u.ocr_confidence_threshold ∧
       u.ocr_confidence_threshold ≤ 100 ∧
       (1 : ℚ) ≤ u.voice_timeout ∧ u.voice_timeout ≤ 30 ∧
       (1 : ℚ) ≤ u.voice_phrase_time_limit ∧
       u.voice_phrase_time_limit ≤ 60 ∧
       (100 : Int) ≤ u.voice_energy_threshold ∧
       u.voice_energy_threshold ≤ 4000 ∧
       (1 : ℚ) ≤ u.action_timeout ∧ u.action_timeout ≤ 300) := by
    intro u
    simp [settings_in_range, and_assoc]
  refine ⟨(key s).trans (range_iff s), ?_, ?_, ?_⟩
  · have hout : ¬ settings_in_range
        { default_settings with screenshot_interval := 1/20 } = true := by
      rw [range_iff]
      intro hin
      have := hin.1
      norm_num [default_settings] at this
    unfold mk_settings
    rw [if_neg hout]
  · have hout : ¬ settings_in_range
        { default_settings with screenshot_interval := 61 } = true := by
      rw [range_iff]
      intro hin
      have := hin.2.1
      norm_num [default_settings] at this
    unfold mk_settings
    rw [if_neg hout]
  · have hin : settings_in_range
        { default_settings with screenshot_interval := 1 } = true := by
      rw [range_iff]
      norm_num [default_settings]
    unfold mk_settings
    rw [if_pos hin]

/-- C10: `listen_for_command` stores the transcript in `last_command`
only on a successful transcription; on every failure outcome it raises a
`VoiceRecognitionError` with the corresponding message and the state —
in particular `last_command` — retains exactly its prior value. -/
theorem listen_for_command_spec (st : VRState) :
    (∀ t, listen_for_command st (.success t) =
      ({ st with last_command := t }, .ok t)) ∧
    (listen_for_command st .waitTimeout =
      (st, .error ⟨str "Listening timed out - no speech detected", none⟩)) ∧
    (listen_for_command st .unknownValue =
      (st, .error ⟨str "Could not understand audio", none⟩)) ∧
    (∀ m, listen_for_command st (.requestError m) =
      (st, .error ⟨str "Could not request results from speech recognition service",
        some m⟩)) ∧
    (∀ m, listen_for_command st (.otherError m) =
      (st, .error ⟨str "Unexpected error during voice recognition", some m⟩)) ∧
    (∀ o : ListenOutcome, (∀ t, o ≠ .success t) →
      (listen_for_command st o).1 = st ∧
      ∃ err, (listen_for_command st o).2 = .error err) := by
  refine ⟨fun t => rfl, rfl, rfl, fun m => rfl, fun m => rfl, ?_⟩
  intro o ho
  cases o with
  | success t => exact absurd rfl (ho t)
  | waitTimeout => exact ⟨rfl, ⟨_, rfl⟩⟩
  | unknownValue => exact ⟨rfl, ⟨_, rfl⟩⟩
  | requestError m => exact ⟨rfl, ⟨_, rfl⟩⟩
  | otherError m => exact ⟨rfl, ⟨_, rfl⟩⟩

/-- C10 witness: the theorem applied to a timeout outcome on a state with
a prior command. -/
theorem listen_for_command_spec_witness :
    (listen_for_command ⟨str "prev"⟩ ListenOutcome.waitTimeout).1 =
      ⟨str "prev"⟩ ∧
    ∃ err, (listen_for_command ⟨str "prev"⟩ ListenOutcome.waitTimeout).2 =
      .error err :=
  (listen_for_command_spec ⟨str "prev"⟩).2.2.2.2.2 ListenOutcome.waitTimeout
    (fun _ h => ListenOutcome.noConfusion h)

end BitDubber
